import Mathlib

/-!
Shallow embedding of the `cam` (Canvas Activity Monitor) repository:
the geometry primitives (`src/pixel_hawk/geometry.py`), the tile ingest
and stitcher (`src/wwpppp/ingest.py`), the project diff engine and
metadata cache (`src/wwpppp/projects.py`, `src/wwpppp/cache.py`), the
main polling loop (`src/wwpppp/main.py`) and the rebuild tool
(`scripts/rebuild.py`).

Conventions of the embedding:
* Python `int` is `ℤ` (or `ℕ` where the source value is provably
  non-negative, e.g. regex-parsed coordinates and palette indices).
* Python `float` arithmetic in the geometry module is modelled over `ℝ`;
  percentage arithmetic in the diff engine is modelled over `ℚ`.
* Python `//` and `%` on non-negative divisors coincide with Lean's
  Euclidean `/` and `%` on `ℤ` (both are floor division with a
  non-negative remainder for a positive divisor).
* Fallible operations (HTTP fetch, image decode, file stat) are passed
  in as `Option`-valued data; uncaught Python exceptions are `Except.error`.
* Images are a size plus a total pixel function `Point → ℕ` of palette
  indices; file contents are byte strings `List ℕ`.
-/

namespace Cam

namespace Geometry

/-- `CANVAS_SIZE = 2048 * 1000` from `pixel_hawk/geometry.py`. -/
def CANVAS_SIZE : ℤ := 2048 * 1000

/-- `Tile`: a cell of the 2048x2048 tile lattice (`geometry.py`). -/
structure Tile where
  x : ℤ
  y : ℤ
deriving DecidableEq, Repr

/-- `Point`: a pixel point of the canvas (`geometry.py`). -/
structure Point where
  x : ℤ
  y : ℤ
deriving DecidableEq, Repr

/-- `Tile.to_point()` with default intra-tile offset `(0, 0)`:
`Point(self.x * 1000, self.y * 1000)`. -/
def Tile.to_point (t : Tile) : Point :=
  ⟨t.x * 1000, t.y * 1000⟩

/-- `Point.__sub__`: componentwise subtraction. -/
def Point.sub (a b : Point) : Point :=
  ⟨a.x - b.x, a.y - b.y⟩

/-- `Size`: a pixel size (`geometry.py`). -/
structure Size where
  w : ℤ
  h : ℤ
deriving DecidableEq, Repr

/-- `Rectangle`: PIL-style  left/top/right/bottom (`geometry.py`). -/
structure Rectangle where
  left : ℤ
  top : ℤ
  right : ℤ
  bottom : ℤ
deriving DecidableEq, Repr

/-- `Rectangle.point`: top-left point, `(min(left, right), min(top, bottom))`. -/
def Rectangle.point (r : Rectangle) : Point :=
  ⟨min r.left r.right, min r.top r.bottom⟩

/-- `Rectangle.size`: `(abs(right - left), abs(bottom - top))`. -/
def Rectangle.size (r : Rectangle) : Size :=
  ⟨|r.right - r.left|, |r.bottom - r.top|⟩

/-- `Rectangle.from_point_size(point, size)`. -/
def Rectangle.from_point_size (p : Point) (s : Size) : Rectangle :=
  ⟨p.x, p.y, p.x + s.w, p.y + s.h⟩

/-- The list `[lo, lo + 1, ..., hi - 1]`, embedding Python `range(lo, hi)`. -/
def intRange (lo hi : ℤ) : List ℤ :=
  (List.range (hi - lo).toNat).map (fun (i : ℕ) => lo + (i : ℤ))

/-- `Rectangle.tiles`: tiles `(tx, ty)` with
`tx ∈ range(left // 1000, (right + 999) // 1000)` and
`ty ∈ range(top // 1000, (bottom + 999) // 1000)`, in the generator's
enumeration order (`for tx ... for ty ...`).  The source wraps this in a
`frozenset`; the embedding keeps the underlying enumeration, which lists
each tile exactly once. -/
def Rectangle.tilesList (r : Rectangle) : List Tile :=
  (intRange (r.left / 1000) ((r.right + 999) / 1000)).flatMap fun tx =>
    (intRange (r.top / 1000) ((r.bottom + 999) / 1000)).map fun ty => ⟨tx, ty⟩

/-- `GeoPoint` (`geometry.py`): latitude/longitude, Python floats
modelled as reals. -/
structure GeoPoint where
  latitude : ℝ
  longitude : ℝ

/-- Python `math.degrees`. -/
noncomputable def degrees (r : ℝ) : ℝ := r * 180 / Real.pi

/-- Python `math.radians`. -/
noncomputable def radians (d : ℝ) : ℝ := d * Real.pi / 180

/-- `Point.to_geo`: inverse Web Mercator,
`longitude = x / CANVAS_SIZE * 360 - 180`,
`latitude = degrees(atan(sinh(pi * (1 - 2 * y / CANVAS_SIZE))))`. -/
noncomputable def Point.to_geo (p : Point) : GeoPoint :=
  ⟨degrees (Real.arctan (Real.sinh (Real.pi * (1 - 2 * (p.y : ℝ) / (CANVAS_SIZE : ℝ))))),
   (p.x : ℝ) / (CANVAS_SIZE : ℝ) * 360 - 180⟩

/-- `GeoPoint.to_pixel`: forward Web Mercator,
`x = (longitude + 180) / 360 * CANVAS_SIZE`,
`y = (1 - asinh(tan(radians(latitude))) / pi) / 2 * CANVAS_SIZE`,
then `Point(round(x), round(y))`. -/
noncomputable def GeoPoint.to_pixel (g : GeoPoint) : Point :=
  ⟨round ((g.longitude + 180) / 360 * (CANVAS_SIZE : ℝ)),
   round ((1 - Real.arsinh (Real.tan (radians g.latitude)) / Real.pi) / 2 * (CANVAS_SIZE : ℝ))⟩

/-- `Point.from4(tx, ty, px, py)`: asserts `min(...) >= 0` (automatic for
`ℕ` arguments: the source values come from a `\d+` regex), `max(px, py) < 1000`
and `max(tx, ty) < 2048`, then builds `Point(tx * 1000 + px, ty * 1000 + py)`.
`none` models the uncaught `AssertionError`. -/
def Point.from4 (tx ty px py : ℕ) : Option Point :=
  if px < 1000 ∧ py < 1000 ∧ tx < 2048 ∧ ty < 2048 then
    some ⟨(tx : ℤ) * 1000 + px, (ty : ℤ) * 1000 + py⟩
  else
    none

end Geometry

namespace Palette

open Geometry

/-- An in-memory paletted image: a size and a total map from (relative)
pixel points to palette indices.  Only pixels with `0 ≤ x < w`,
`0 ≤ y < h` are meaningful; index `0` is the reserved transparent entry. -/
structure Img where
  w : ℤ
  h : ℤ
  pix : Point → ℕ

/-- Modelled from the spec: `wwpppp/palette.py` is not in the tree.
Sec. 4.2: `PALETTE.new(size)` constructs a paletted image of the given
size whose pixels are all transparent (index 0). -/
def PALETTE_new (s : Size) : Img :=
  ⟨s.w, s.h, fun _ => 0⟩

end Palette

namespace Ingest

open Geometry Palette

/-- Outcome of `requests.get(url, timeout=5)` in `has_tile_changed`:
either the request timed out (which raises `requests.exceptions.Timeout`,
uncaught in `ingest.py`) or a response with a status code and body arrived. -/
inductive FetchOutcome where
  | timeout : FetchOutcome
  | response (status : ℕ) (body : List ℕ) : FetchOutcome

/-- `has_tile_changed` (`ingest.py` lines 12-34), for a single tile.
Parameters model the collaborators:
* `decode : List ℕ → Option α` is `PIL.Image.open` on the body
  (`none` = decode exception, caught → return `False`);
* `ensure : α → List ℕ` is `PALETTE.ensure` followed by `tobytes()`,
  producing the canonical byte string (palette.py is not in the tree);
* `cache : Option (List ℕ)` is the decoded byte string of the cached
  tile file, when that file exists.
Returns the boolean result together with the new cache contents;
`Except.error ()` models the uncaught timeout exception.  The function
performs exactly one fetch (no internal retry). -/
def has_tile_changed {α : Type} (decode : List ℕ → Option α) (ensure : α → List ℕ)
    (fetch : FetchOutcome) (cache : Option (List ℕ)) :
    Except Unit (Bool × Option (List ℕ)) :=
  match fetch with
  | .timeout => .error ()
  | .response status body =>
    if status ≠ 200 then
      .ok (false, cache)
    else
      match decode body with
      | none => .ok (false, cache)
      | some img =>
        let paletted := ensure img
        match cache with
        | some cached =>
            if cached = paletted then .ok (false, some cached)
            else .ok (true, some paletted)
        | none => .ok (true, some paletted)

/-- `image.paste(tile_image, Rectangle.from_point_size(offset, Size(1000, 1000)))`:
writes the 1000x1000 tile image at `offset`, leaving every other pixel
of `image` unchanged.  (PIL clips the box to the image; the claims below
only inspect in-bounds pixels, where clipping is invisible.) -/
def paste (img : Img) (tile_img : Img) (offset : Point) : Img :=
  { img with
    pix := fun p =>
      if offset.x ≤ p.x ∧ p.x < offset.x + 1000 ∧ offset.y ≤ p.y ∧ p.y < offset.y + 1000 then
        tile_img.pix ⟨p.x - offset.x, p.y - offset.y⟩
      else
        img.pix p }

/-- One iteration of the `for tile in rect.tiles` loop of `stitch_tiles`:
if the cache has a file for `tile`, paste it at `tile.to_point() - rect.point`,
otherwise leave the image as is (tile missing from cache). -/
def stitchStep (cache : Tile → Option Img) (rp : Point) (img : Img) (tile : Tile) : Img :=
  match cache tile with
  | none => img
  | some ti => paste img ti (tile.to_point.sub rp)

/-- `stitch_tiles(rect)` (`ingest.py` lines 37-48): start from
`PALETTE.new(rect.size)` and paste each cached tile of `rect.tiles`.
`cache tile = none` models a cache file that does not exist.  The source
iterates over a `frozenset` in unspecified order; distinct tiles paste
onto disjoint pixel sets, so the fold over the enumeration order is
order-independent (this is what the uniqueness lemma below proves). -/
def stitch_tiles (cache : Tile → Option Img) (rect : Rectangle) : Img :=
  rect.tilesList.foldl (stitchStep cache rect.point) (PALETTE_new rect.size)

/-- The lattice tile containing the absolute canvas pixel `rp + pt`
(`rp` the rectangle origin, `pt` a rectangle-relative pixel): the unique
tile whose 1000x1000 cell covers that pixel. -/
def coveringTile (rp pt : Point) : Tile :=
  ⟨(rp.x + pt.x) / 1000, (rp.y + pt.y) / 1000⟩

end Ingest

namespace Projects

open Geometry

/-- `pixel_compare(current, desired)` (`projects.py` line 122):
`0 if desired == current else desired`. -/
def pixel_compare (current desired : ℕ) : ℕ :=
  if desired = current then 0 else desired

/-- What a single `Project.run_diff` invocation does, observationally:
return as "not started" (`remaining == target_data`), return as complete
(`max(remaining) == 0`), report the remaining/target counts and the
percentage, or raise `ValueError` (`max()` of an empty byte string). -/
inductive RunDiffOutcome where
  | notStarted : RunDiffOutcome
  | complete : RunDiffOutcome
  | report (num_remaining num_target : ℕ) (percentage : ℚ) : RunDiffOutcome
  | valueError : RunDiffOutcome
deriving DecidableEq, Repr

/-- `Project.run_diff` (`projects.py` lines 93-114) on the flattened pixel
data: `current` is `stitch_tiles(self.rect).get_flattened_data()` and
`target` is `self.image.get_flattened_data()`.
`remaining = bytes(map(pixel_compare, current, target))` (truncating at
the shorter list, as Python `map` over two iterables does); if
`remaining == target_data` the project is treated as not started; else if
`max(remaining) == 0` the project is complete (`max` raises `ValueError`
on an empty byte string); otherwise the counts and the percentage
`num_remaining * 100 / num_target` are computed and logged. -/
def run_diff (current target : List ℕ) : RunDiffOutcome :=
  let remaining := List.zipWith pixel_compare current target
  if remaining = target then
    .notStarted
  else if remaining = [] then
    .valueError
  else if remaining.foldl Nat.max 0 = 0 then
    .complete
  else
    let num_remaining := remaining.countP (fun v => v != 0)
    let c := target.countP (fun v => v != 0)
    let num_target := if c = 0 then 1 else c
    .report num_remaining num_target ((num_remaining : ℚ) * 100 / (num_target : ℚ))

/-- Outcome of `Project.try_open` (`projects.py` lines 30-59): `none`
returned (no coords in the filename, not a file, or `ColorNotInPalette`),
an uncaught exception (the `AssertionError` from `Point.from4`), or a
`Project` carrying the given rectangle. -/
inductive TryOpenResult where
  | noProject : TryOpenResult
  | assertionError : TryOpenResult
  | accepted (rect : Rectangle) : TryOpenResult
deriving DecidableEq, Repr

/-- `Project.try_open(path)` (`projects.py` lines 30-59).  Collaborators
are passed as data:
* `coords`: the four integers of the `_RE_HAS_COORDS` match on the
  filename (`none` = no match or `path` is not a file; `\d+` only
  matches non-negative integers, hence `ℕ`);
* `cached`: the rectangle held by a truthy `CachedProjectMetadata`
  (`none` = falsy cache); a truthy cache is returned as a `Project`
  with NO further validation;
* `image_size`: the size from `PALETTE.open_image` (`none` =
  `ColorNotInPalette`, upon which the file is renamed `.invalid.png`
  and `None` is returned).
The rectangle of an accepted uncached project is
`Rectangle.from_point_size(Point.from4(tx, ty, px, py), size)`; the
`AssertionError` of `from4` is not caught. -/
def try_open (coords : Option (ℕ × ℕ × ℕ × ℕ)) (cached : Option Rectangle)
    (image_size : Option Size) : TryOpenResult :=
  match coords with
  | none => .noProject
  | some (tx, ty, px, py) =>
    match cached with
    | some r => .accepted r
    | none =>
      match image_size with
      | none => .noProject
      | some size =>
        match Point.from4 tx ty px py with
        | none => .assertionError
        | some pt => .accepted (Rectangle.from_point_size pt size)

/-- A `Project` as built by `Project.__init__` (`projects.py` lines 61-65):
the constructor stores exactly `path`, `rect` and `_image = None`.  In
particular no `mtime` attribute is ever set on a `Project`. -/
structure Project where
  path : String
  rect : Rectangle
deriving DecidableEq

/-- Python `getattr(proj, "mtime", None)` for a `Project` instance:
always `None`, because neither `Project.__init__` nor any other method of
`Project` (nor `Main.load_project` in `main.py`) assigns an `mtime`
attribute. -/
def Project.getattr_mtime (_ : Project) : Option ℚ := none

/-- A row of the `cache` table (`cache.py` lines 30-42):
`(filename, mtime, left, top, right, bottom)`, keyed by filename. -/
structure CacheRow where
  mtime : ℤ
  left : ℤ
  top : ℤ
  right : ℤ
  bottom : ℤ
deriving DecidableEq

/-- The `cache` table of `projects.db`: filename → row. -/
def CacheDB : Type := String → Option CacheRow

/-- The in-memory state of a `CachedProjectMetadata` (a `list` subclass):
its key (the file name), the `mtime` captured at construction, and the
list contents (empty, or a single rectangle). -/
structure CPM where
  key : String
  mtime : ℤ
  contents : List Rectangle
deriving DecidableEq

/-- `CachedProjectMetadata.__init__` + `_load` (`projects.py` lines
144-173): `mtime = int(path.stat().st_mtime)`, or `0` when the file is
missing (`FileNotFoundError`); then the row for `key` is fetched and
yields `[Rectangle(left, top, right, bottom)]` when its stored mtime
equals the captured one, `[]` otherwise (no row, or stale mtime).
`file_mtime` is the already-truncated stat result (`none` = missing file). -/
def cpm_init (db : CacheDB) (key : String) (file_mtime : Option ℤ) : CPM :=
  let m := file_mtime.getD 0
  let contents :=
    match db key with
    | none => []
    | some row =>
      if row.mtime = m then [Rectangle.mk row.left row.top row.right row.bottom]
      else []
  ⟨key, m, contents⟩

/-- `CachedProjectMetadata.__call__(rect)` (`projects.py` lines 175-191):
`REPLACE INTO cache VALUES (key, mtime, rect.left, rect.top, rect.right,
rect.bottom)`, then `clear()` and `append(rect)`.  Returns the updated
database and the updated list object. -/
def cpm_save (db : CacheDB) (c : CPM) (rect : Rectangle) : CacheDB × CPM :=
  (fun k => if k = c.key then some ⟨c.mtime, rect.left, rect.top, rect.right, rect.bottom⟩
            else db k,
   ⟨c.key, c.mtime, [rect]⟩)

end Projects

namespace MainLoop

open Projects

/-- `Main._file_modified(path)` (`main.py` lines 57-66): `True` when the
path has no loaded project, `True` when `path.stat()` raises `OSError`,
and otherwise `current_mtime != getattr(proj, "mtime", None)` — a float
compared against the attribute lookup on the loaded `Project`. -/
def file_modified (projects : String → Option Project) (stat : String → Option ℚ)
    (path : String) : Bool :=
  match projects path with
  | none => true
  | some proj =>
    match stat path with
    | none => true
    | some current_mtime => decide (some current_mtime ≠ proj.getattr_mtime)

end MainLoop

namespace Rebuild

/-- `scripts/rebuild.py` line 167:
`num_remaining = sum(1 for curr, tgt in zip(canvas_data, target_data) if tgt and curr != tgt)`. -/
def num_remaining (canvas target : List ℕ) : ℕ :=
  (canvas.zip target).countP fun p => p.2 != 0 && p.1 != p.2

/-- `scripts/rebuild.py` line 166:
`num_target = sum(1 for v in target_data if v) or 1`. -/
def num_target (target : List ℕ) : ℕ :=
  let c := target.countP fun v => v != 0
  if c = 0 then 1 else c

/-- `scripts/rebuild.py` line 173:
`percent = 100.0 - (num_remaining * 100.0 / num_target)` (floats
modelled as rationals). -/
def percent (canvas target : List ℕ) : ℚ :=
  100 - ((num_remaining canvas target : ℚ) * 100 / (num_target target : ℚ))

end Rebuild

end Cam

namespace Cam

open Geometry Palette Ingest Projects

/-- `math.radians(math.degrees(r)) = r` over the reals. -/
theorem radians_degrees (r : ℝ) : radians (degrees r) = r := by
  simp only [radians, degrees]
  field_simp

/-- C7: for every pixel point of the canvas interior
(`0 ≤ x, y < 2048 * 1000`), the round-trip `pt.to_geo().to_pixel()`
yields coordinates each within 1 of `pt` — over the real-number model of
the float arithmetic the round-trip is in fact exact, because
`tan (arctan v) = v` and `asinh (sinh u) = u`, and rounding an integer
is the identity. -/
theorem to_geo_to_pixel_roundtrip (p : Point)
    (hx0 : 0 ≤ p.x) (hx1 : p.x < CANVAS_SIZE)
    (hy0 : 0 ≤ p.y) (hy1 : p.y < CANVAS_SIZE) :
    |(p.to_geo.to_pixel).x - p.x| ≤ 1 ∧ |(p.to_geo.to_pixel).y - p.y| ≤ 1 := by
  have hS : (CANVAS_SIZE : ℝ) ≠ 0 := by norm_num [CANVAS_SIZE]
  have hpi : Real.pi ≠ 0 := Real.pi_ne_zero
  have hxeq : (p.to_geo.to_pixel).x = p.x := by
    simp only [Point.to_geo, GeoPoint.to_pixel]
    have : ((p.x : ℝ) / (CANVAS_SIZE : ℝ) * 360 - 180 + 180) / 360 * (CANVAS_SIZE : ℝ)
        = (p.x : ℝ) := by
      field_simp
      ring
    rw [this, round_intCast]
  have hyeq : (p.to_geo.to_pixel).y = p.y := by
    simp only [Point.to_geo, GeoPoint.to_pixel, radians_degrees, Real.tan_arctan,
      Real.arsinh_sinh]
    have : (1 - Real.pi * (1 - 2 * (p.y : ℝ) / (CANVAS_SIZE : ℝ)) / Real.pi) / 2
        * (CANVAS_SIZE : ℝ) = (p.y : ℝ) := by
      field_simp
      ring
    rw [this, round_intCast]
  rw [hxeq, hyeq]
  simp

/-- C7 witness: the concrete interior point `(1024000, 1024000)`. -/
theorem to_geo_to_pixel_roundtrip_witness :
    (0 ≤ (1024000 : ℤ) ∧ (1024000 : ℤ) < CANVAS_SIZE) ∧
    |((Point.mk 1024000 1024000).to_geo.to_pixel).x - 1024000| ≤ 1 ∧
    |((Point.mk 1024000 1024000).to_geo.to_pixel).y - 1024000| ≤ 1 :=
  ⟨⟨by decide, by decide⟩,
   to_geo_to_pixel_roundtrip ⟨1024000, 1024000⟩ (by decide) (by decide)
     (by decide) (by decide)⟩

/-- Membership in the embedded Python `range`. -/
theorem mem_intRange {z lo hi : ℤ} : z ∈ intRange lo hi ↔ lo ≤ z ∧ z < hi := by
  rw [intRange]
  constructor
  · intro hmem
    obtain ⟨i, hi', hz⟩ := List.mem_map.mp hmem
    rw [List.mem_range] at hi'
    omega
  · rintro ⟨h1, h2⟩
    refine List.mem_map.mpr ⟨(z - lo).toNat, List.mem_range.mpr ?_, ?_⟩
    · omega
    · omega

/-- Membership in `Rectangle.tiles`: exactly the tiles of the covering grid. -/
theorem mem_tilesList {r : Rectangle} {t : Tile} :
    t ∈ r.tilesList ↔
      (r.left / 1000 ≤ t.x ∧ t.x < (r.right + 999) / 1000) ∧
      (r.top / 1000 ≤ t.y ∧ t.y < (r.bottom + 999) / 1000) := by
  simp only [Rectangle.tilesList, List.mem_flatMap, List.mem_map, mem_intRange]
  constructor
  · rintro ⟨tx, htx, ty, hty, rfl⟩
    exact ⟨htx, hty⟩
  · rintro ⟨htx, hty⟩
    exact ⟨t.x, htx, t.y, hty, rfl⟩

/-- A paste of a tile other than the covering tile leaves the pixel alone. -/
theorem stitchStep_pix_ne (cache : Tile → Option Img) (rp : Point) (img : Img)
    (t : Tile) (pt : Point) (h : t ≠ coveringTile rp pt) :
    (stitchStep cache rp img t).pix pt = img.pix pt := by
  cases hc : cache t with
  | none => simp [stitchStep, hc]
  | some ti =>
    simp only [stitchStep, hc, paste, Tile.to_point, Point.sub]
    rw [if_neg]
    intro hcov
    apply h
    obtain ⟨c1, c2, c3, c4⟩ := hcov
    have hx : t.x = (rp.x + pt.x) / 1000 := by omega
    have hy : t.y = (rp.y + pt.y) / 1000 := by omega
    cases t
    simp only [coveringTile, Tile.mk.injEq]
    exact ⟨hx, hy⟩

/-- A paste of the covering tile writes that tile's pixel at the intra-tile
offset (the remainder modulo 1000) when the tile is cached. -/
theorem stitchStep_pix_covering (cache : Tile → Option Img) (rp : Point)
    (img : Img) (pt : Point) :
    (stitchStep cache rp img (coveringTile rp pt)).pix pt =
      match cache (coveringTile rp pt) with
      | some ti => ti.pix ⟨(rp.x + pt.x) % 1000, (rp.y + pt.y) % 1000⟩
      | none => img.pix pt := by
  cases hc : cache (coveringTile rp pt) with
  | none => simp [stitchStep, hc]
  | some ti =>
    simp only [stitchStep, hc]
    simp only [paste, Tile.to_point, Point.sub, coveringTile]
    rw [if_pos]
    · congr 1
      simp only [Point.mk.injEq]
      constructor
      · omega
      · omega
    · refine ⟨by omega, by omega, by omega, by omega⟩

/-- The pixel value of the stitching fold: determined by the covering tile
when it is in the list and cached, else the initial image's pixel. -/
theorem foldl_stitchStep_pix (cache : Tile → Option Img) (rp pt : Point)
    (L : List Tile) (init : Img) :
    (L.foldl (stitchStep cache rp) init).pix pt =
      if coveringTile rp pt ∈ L then
        match cache (coveringTile rp pt) with
        | some ti => ti.pix ⟨(rp.x + pt.x) % 1000, (rp.y + pt.y) % 1000⟩
        | none => init.pix pt
      else init.pix pt := by
  induction L generalizing init with
  | nil => simp
  | cons t L ih =>
    rw [List.foldl_cons, ih]
    cases hc : cache (coveringTile rp pt) with
    | none =>
      simp only [ite_self]
      by_cases ht : t = coveringTile rp pt
      · rw [ht, stitchStep_pix_covering, hc]
      · rw [stitchStep_pix_ne cache rp init t pt ht]
    | some ti =>
      by_cases ht : t = coveringTile rp pt
      · have hstep : (stitchStep cache rp init t).pix pt =
            ti.pix ⟨(rp.x + pt.x) % 1000, (rp.y + pt.y) % 1000⟩ := by
          rw [ht, stitchStep_pix_covering, hc]
        rw [hstep]
        simp [ite_self, ht, List.mem_cons]
      · rw [stitchStep_pix_ne cache rp init t pt ht]
        have hne : coveringTile rp pt ≠ t := fun hh => ht hh.symm
        have hmem : (coveringTile rp pt ∈ t :: L) ↔ (coveringTile rp pt ∈ L) := by
          simp [List.mem_cons, hne]
        rw [if_congr hmem rfl rfl]

/-- The stitching fold never changes the image dimensions. -/
theorem foldl_stitchStep_size (cache : Tile → Option Img) (rp : Point)
    (L : List Tile) (init : Img) :
    (L.foldl (stitchStep cache rp) init).w = init.w ∧
    (L.foldl (stitchStep cache rp) init).h = init.h := by
  induction L generalizing init with
  | nil => exact ⟨rfl, rfl⟩
  | cons t L ih =>
    rw [List.foldl_cons]
    have hstep : (stitchStep cache rp init t).w = init.w ∧
        (stitchStep cache rp init t).h = init.h := by
      cases hc : cache t <;> simp [stitchStep, hc, paste]
    obtain ⟨hw, hh⟩ := ih (stitchStep cache rp init t)
    exact ⟨hw.trans hstep.1, hh.trans hstep.2⟩

/-- C6: for every (canonically oriented, in-canvas-origin) rectangle,
`stitch_tiles` returns a paletted image of exactly `rect.size`; at every
in-bounds pixel `p`, if the tile covering the absolute pixel
`rect.point + p` has a cached file, the result holds that tile's pixel at
the intra-tile offset (the paste at offset `tile.origin - rect.origin`),
and if that tile is missing from the cache the pixel stays transparent
(index 0, from `PALETTE.new`). -/
theorem stitch_tiles_spec (cache : Tile → Option Img) (rect : Rectangle)
    (hl : 0 ≤ rect.left) (hlr : rect.left ≤ rect.right)
    (ht : 0 ≤ rect.top) (htb : rect.top ≤ rect.bottom)
    (p : Point) (hx0 : 0 ≤ p.x) (hx1 : p.x < rect.size.w)
    (hy0 : 0 ≤ p.y) (hy1 : p.y < rect.size.h) :
    (stitch_tiles cache rect).w = rect.size.w ∧
    (stitch_tiles cache rect).h = rect.size.h ∧
    (stitch_tiles cache rect).pix p =
      (match cache (coveringTile rect.point p) with
       | some ti => ti.pix ⟨(rect.point.x + p.x) % 1000, (rect.point.y + p.y) % 1000⟩
       | none => 0) := by
  have hpt : rect.point = ⟨rect.left, rect.top⟩ := by
    simp [Rectangle.point, min_eq_left hlr, min_eq_left htb]
  have hsz : rect.size = ⟨rect.right - rect.left, rect.bottom - rect.top⟩ := by
    simp [Rectangle.size, abs_of_nonneg (sub_nonneg.mpr hlr),
      abs_of_nonneg (sub_nonneg.mpr htb)]
  obtain ⟨hw, hh⟩ := foldl_stitchStep_size cache rect.point rect.tilesList
    (PALETTE_new rect.size)
  refine ⟨hw.trans rfl, hh.trans rfl, ?_⟩
  rw [stitch_tiles, foldl_stitchStep_pix]
  have hx1' : p.x < rect.right - rect.left := by
    rw [hsz] at hx1
    exact hx1
  have hy1' : p.y < rect.bottom - rect.top := by
    rw [hsz] at hy1
    exact hy1
  have hmem : coveringTile rect.point p ∈ rect.tilesList := by
    rw [mem_tilesList, hpt]
    simp only [coveringTile]
    constructor
    · constructor
      · omega
      · omega
    · constructor
      · omega
      · omega
  rw [if_pos hmem]
  cases cache (coveringTile rect.point p) with
  | none => rfl
  | some ti => rfl

/-- C6 witness: a 1500x1000 rectangle at the origin; tile (0,0) cached
with constant index 3, tile (1,0) missing. -/
theorem stitch_tiles_spec_witness :
    ((0 : ℤ) ≤ 0 ∧ (0 : ℤ) ≤ 1500 ∧ (0 : ℤ) ≤ 0 ∧ (0 : ℤ) ≤ 1000 ∧
      (0 : ℤ) ≤ 500 ∧ (500 : ℤ) < (Rectangle.mk 0 0 1500 1000).size.w ∧
      (0 : ℤ) ≤ 500 ∧ (500 : ℤ) < (Rectangle.mk 0 0 1500 1000).size.h) ∧
    ((stitch_tiles (fun t => if t = ⟨0, 0⟩ then some ⟨1000, 1000, fun _ => 3⟩ else none)
        (Rectangle.mk 0 0 1500 1000)).w = (Rectangle.mk 0 0 1500 1000).size.w ∧
      (stitch_tiles (fun t => if t = ⟨0, 0⟩ then some ⟨1000, 1000, fun _ => 3⟩ else none)
        (Rectangle.mk 0 0 1500 1000)).h = (Rectangle.mk 0 0 1500 1000).size.h ∧
      (stitch_tiles (fun t => if t = ⟨0, 0⟩ then some ⟨1000, 1000, fun _ => 3⟩ else none)
        (Rectangle.mk 0 0 1500 1000)).pix ⟨500, 500⟩ =
        (match (fun (t : Tile) => if t = ⟨0, 0⟩ then some (Img.mk 1000 1000 (fun _ => 3)) else none)
            (coveringTile (Rectangle.mk 0 0 1500 1000).point ⟨500, 500⟩) with
         | some ti => ti.pix ⟨((Rectangle.mk 0 0 1500 1000).point.x + 500) % 1000,
             ((Rectangle.mk 0 0 1500 1000).point.y + 500) % 1000⟩
         | none => 0)) :=
  ⟨⟨by decide, by decide, by decide, by decide, by decide, by decide, by decide, by decide⟩,
   stitch_tiles_spec (fun t => if t = ⟨0, 0⟩ then some ⟨1000, 1000, fun _ => 3⟩ else none)
     (Rectangle.mk 0 0 1500 1000) (by decide) (by decide) (by decide) (by decide)
     ⟨500, 500⟩ (by decide) (by decide) (by decide) (by decide)⟩

/-- C3: for a tile fetch whose HTTP download succeeds (status 200) and whose
body decodes as an image, `has_tile_changed` returns `False` and leaves the
cached tile file unmodified if and only if a cached tile file exists whose
decoded byte string equals the canonicalized downloaded byte string;
otherwise it writes the canonical bytes to the cache file and returns `True`. -/
theorem has_tile_changed_cache_spec {α : Type} (decode : List ℕ → Option α)
    (ensure : α → List ℕ) (status : ℕ) (body : List ℕ) (img : α)
    (cache : Option (List ℕ)) (hs : status = 200) (hd : decode body = some img) :
    (has_tile_changed decode ensure (.response status body) cache = .ok (false, cache) ↔
      cache = some (ensure img)) ∧
    (cache ≠ some (ensure img) →
      has_tile_changed decode ensure (.response status body) cache
        = .ok (true, some (ensure img))) := by
  subst hs
  simp only [has_tile_changed, hd]
  cases cache with
  | none => simp
  | some cached =>
    by_cases hc : cached = ensure img <;> simp [hc]

/-- C3 witness: concrete instance with status 200, decodable body, empty cache. -/
theorem has_tile_changed_cache_spec_witness :
    (200 = 200) ∧ ((fun b => some b) [1] = some ([1] : List ℕ)) ∧
    ((has_tile_changed (fun b => some b) (fun b => b) (.response 200 [1]) none
        = .ok (false, none) ↔ (none : Option (List ℕ)) = some [1]) ∧
      ((none : Option (List ℕ)) ≠ some [1] →
        has_tile_changed (fun b => some b) (fun b => b) (.response 200 [1]) none
          = .ok (true, some [1]))) :=
  ⟨rfl, rfl, has_tile_changed_cache_spec (fun b => some b) (fun b => b) 200 [1] [1] none rfl rfl⟩

/-- C4 counterexample: on a request timeout, `has_tile_changed` does not
return `False` — `requests.get(url, timeout=5)` raises
`requests.exceptions.Timeout` and nothing in `ingest.py` catches it, so the
exception propagates (modelled as `Except.error ()`), contradicting the
claim that a timed-out fetch returns `False` without raising. -/
theorem has_tile_changed_timeout_counterexample :
    has_tile_changed (fun b => some b) (fun b => b) FetchOutcome.timeout none
        = .error () ∧
    has_tile_changed (fun b => some b) (fun b => b) FetchOutcome.timeout none
        ≠ .ok (false, none) := by
  constructor
  · rfl
  · simp [has_tile_changed]

/-- C4 (amended): on an HTTP status other than 200 or a body that fails to
decode as an image, `has_tile_changed` returns `False` with no state
mutation (the cached tile file is not created or modified) and performs no
internal retry; a request timeout, however, raises (the
`requests.exceptions.Timeout` is uncaught) instead of returning `False`. -/
theorem has_tile_changed_unavailable_spec {α : Type} (decode : List ℕ → Option α)
    (ensure : α → List ℕ) (status : ℕ) (body : List ℕ) (cache : Option (List ℕ))
    (h : status ≠ 200 ∨ decode body = none) :
    has_tile_changed decode ensure (.response status body) cache = .ok (false, cache) ∧
    has_tile_changed decode ensure FetchOutcome.timeout cache = .error () := by
  refine ⟨?_, rfl⟩
  rcases h with h | h
  · simp [has_tile_changed, h]
  · by_cases hs : status = 200
    · simp [has_tile_changed, hs, h]
    · simp [has_tile_changed, hs]

/-- C4 witness: concrete instance with an HTTP 404 response. -/
theorem has_tile_changed_unavailable_spec_witness :
    ((404 ≠ 200) ∨ ((fun b => some b) [1] = (none : Option (List ℕ)))) ∧
    (has_tile_changed (fun b => some b) (fun b => b) (.response 404 [1]) (some [7])
        = .ok (false, some [7]) ∧
      has_tile_changed (fun b => some b) (fun b => b) FetchOutcome.timeout (some [7])
        = .error ()) :=
  ⟨Or.inl (by decide),
   has_tile_changed_unavailable_spec (fun b => some b) (fun b => b) 404 [1] (some [7])
     (Or.inl (by decide))⟩

/-- C8 counterexample: the project file named with coordinates
`(tx, ty, px, py) = (2047, 0, 999, 0)` and a 2x1 image is accepted by
`Project.try_open` with rectangle `[2047999, 2048001) x [0, 1)`, which
extends past the right canvas edge `2048 * 1000 = 2048000`: `try_open`
never checks the far edge of the rectangle. -/
theorem try_open_out_of_canvas_counterexample :
    try_open (some (2047, 0, 999, 0)) none (some ⟨2, 1⟩)
        = .accepted ⟨2047999, 0, 2048001, 1⟩ ∧
    (2048001 : ℤ) > CANVAS_SIZE := by
  constructor
  · rfl
  · decide

/-- C8 (amended): a project accepted by `Project.try_open` through the
uncached path has its TOP-LEFT corner inside the canvas (the filename
coordinates satisfy the `Point.from4` assertions, so
`0 ≤ left, top < 2048 * 1000`), and its right/bottom edges are the top-left
plus the image size — which `try_open` does not bound, so the rectangle may
extend past the canvas edge; the cached path performs no validation at all. -/
theorem try_open_top_left_in_canvas (tx ty px py : ℕ) (sz : Size) (r : Rectangle)
    (h : try_open (some (tx, ty, px, py)) none (some sz) = .accepted r) :
    0 ≤ r.left ∧ r.left < CANVAS_SIZE ∧ 0 ≤ r.top ∧ r.top < CANVAS_SIZE ∧
    r.right = r.left + sz.w ∧ r.bottom = r.top + sz.h := by
  simp only [try_open, Point.from4] at h
  by_cases hc : px < 1000 ∧ py < 1000 ∧ tx < 2048 ∧ ty < 2048
  · rw [if_pos hc] at h
    simp only [TryOpenResult.accepted.injEq] at h
    obtain ⟨hpx, hpy, htx, hty⟩ := hc
    subst h
    simp only [Rectangle.from_point_size, CANVAS_SIZE]
    have h1 : (tx : ℤ) < 2048 := by exact_mod_cast htx
    have h2 : (px : ℤ) < 1000 := by exact_mod_cast hpx
    have h3 : (ty : ℤ) < 2048 := by exact_mod_cast hty
    have h4 : (py : ℤ) < 1000 := by exact_mod_cast hpy
    have h5 : (0 : ℤ) ≤ tx := Int.natCast_nonneg tx
    have h6 : (0 : ℤ) ≤ px := Int.natCast_nonneg px
    have h7 : (0 : ℤ) ≤ ty := Int.natCast_nonneg ty
    have h8 : (0 : ℤ) ≤ py := Int.natCast_nonneg py
    refine ⟨by omega, by omega, by omega, by omega, by trivial, by trivial⟩
  · rw [if_neg hc] at h
    exact absurd h (by simp)

/-- C8 witness: a small concrete accepted project. -/
theorem try_open_top_left_in_canvas_witness :
    try_open (some (1, 2, 3, 4)) none (some ⟨5, 6⟩)
        = .accepted ⟨1003, 2004, 1008, 2010⟩ ∧
    (0 ≤ (1003 : ℤ) ∧ (1003 : ℤ) < CANVAS_SIZE ∧ 0 ≤ (2004 : ℤ) ∧
      (2004 : ℤ) < CANVAS_SIZE ∧ (1008 : ℤ) = 1003 + (5 : ℤ) ∧
      (2010 : ℤ) = 2004 + (6 : ℤ)) :=
  ⟨rfl, try_open_top_left_in_canvas 1 2 3 4 ⟨5, 6⟩ ⟨1003, 2004, 1008, 2010⟩ rfl⟩

/-- The count of nonzero entries of `remaining` equals the count of zipped
pairs whose target index is nonzero and differs from the current index. -/
theorem countP_zipWith_pixel_compare (c t : List ℕ) :
    (List.zipWith pixel_compare c t).countP (fun v => v != 0) =
      (c.zip t).countP (fun p => p.2 != 0 && p.1 != p.2) := by
  induction c generalizing t with
  | nil => cases t <;> simp
  | cons x c ih =>
    cases t with
    | nil => simp
    | cons y t =>
      by_cases h : y = x
      · subst h
        simp [List.countP_cons, pixel_compare, ih]
      · simp [List.countP_cons, pixel_compare, h, Ne.symm h, ih]

/-- The zipped count, for lists of equal length, is the count of positions
`i` with `t[i] ≠ 0` and `c[i] ≠ t[i]`. -/
theorem countP_zip_eq_range (c t : List ℕ) (h : c.length = t.length) :
    (c.zip t).countP (fun p => p.2 != 0 && p.1 != p.2) =
      (List.range t.length).countP
        (fun i => t.getD i 0 != 0 && c.getD i 0 != t.getD i 0) := by
  induction c generalizing t with
  | nil =>
    cases t with
    | nil => simp
    | cons y t => simp at h
  | cons x c ih =>
    cases t with
    | nil => simp at h
    | cons y t =>
      simp only [List.length_cons] at h
      rw [List.length_cons, List.range_succ_eq_map]
      simp only [List.zip_cons_cons, List.countP_cons, List.countP_map]
      rw [ih t (by omega)]
      have hpred : ∀ i ∈ List.range t.length,
          ((t.getD i 0 != 0 && c.getD i 0 != t.getD i 0) = true ↔
            (((fun i => (y :: t).getD i 0 != 0 &&
              (x :: c).getD i 0 != (y :: t).getD i 0) ∘ Nat.succ) i) = true) := by
        intro i _
        simp [Function.comp]
      rw [List.countP_congr hpred]
      simp

/-- Inversion for the report branch of `run_diff`: the reported values are
the counts and the quotient computed in `projects.py` lines 108-110. -/
theorem run_diff_report_inv (current target : List ℕ) (n t : ℕ) (pct : ℚ)
    (h : run_diff current target = .report n t pct) :
    n = (List.zipWith pixel_compare current target).countP (fun v => v != 0) ∧
    t = Rebuild.num_target target ∧
    pct = (n : ℚ) * 100 / (t : ℚ) := by
  simp only [run_diff] at h
  split_ifs at h with h1 h2 h3 h4
  all_goals first
    | simp only [reduceCtorEq] at h
    | (simp only [RunDiffOutcome.report.injEq] at h
       obtain ⟨hn, ht, hp⟩ := h
       refine ⟨hn.symm, ?_, ?_⟩
       · simp only [Rebuild.num_target]
         split_ifs
         all_goals omega
       · rw [← hp, hn, ht])

/-- C1: whenever `Project.run_diff` computes its remaining-pixel count
(the report branch), that count equals the number of positions `i` with
`target[i] ≠ 0` and `current[i] ≠ target[i]` — positions with
`target[i] = 0` never contribute (`pixel_compare` maps them to 0) — and
the rebuild tool's `num_remaining` over the same data equals the same
positional count. -/
theorem run_diff_num_remaining_spec (current target : List ℕ) (n t : ℕ) (pct : ℚ)
    (hlen : current.length = target.length)
    (hrep : run_diff current target = .report n t pct) :
    n = (List.range target.length).countP
        (fun i => target.getD i 0 != 0 && current.getD i 0 != target.getD i 0) ∧
    Rebuild.num_remaining current target =
      (List.range target.length).countP
        (fun i => target.getD i 0 != 0 && current.getD i 0 != target.getD i 0) := by
  obtain ⟨hn, -, -⟩ := run_diff_report_inv current target n t pct hrep
  constructor
  · rw [hn, countP_zipWith_pixel_compare, countP_zip_eq_range current target hlen]
  · rw [Rebuild.num_remaining, countP_zip_eq_range current target hlen]

/-- C1 witness: target `[1,1,1]`, current `[1,1,2]` — one remaining pixel. -/
theorem run_diff_num_remaining_spec_witness :
    ([1, 1, 2] : List ℕ).length = ([1, 1, 1] : List ℕ).length ∧
    run_diff [1, 1, 2] [1, 1, 1] = .report 1 3 ((1 : ℚ) * 100 / (3 : ℚ)) ∧
    (1 = (List.range ([1, 1, 1] : List ℕ).length).countP
        (fun i => ([1, 1, 1] : List ℕ).getD i 0 != 0 &&
          ([1, 1, 2] : List ℕ).getD i 0 != ([1, 1, 1] : List ℕ).getD i 0) ∧
      Rebuild.num_remaining [1, 1, 2] [1, 1, 1] =
        (List.range ([1, 1, 1] : List ℕ).length).countP
          (fun i => ([1, 1, 1] : List ℕ).getD i 0 != 0 &&
            ([1, 1, 2] : List ℕ).getD i 0 != ([1, 1, 1] : List ℕ).getD i 0)) :=
  ⟨rfl, by simp [run_diff, pixel_compare],
   run_diff_num_remaining_spec [1, 1, 2] [1, 1, 1] 1 3 ((1 : ℚ) * 100 / (3 : ℚ))
     rfl (by simp [run_diff, pixel_compare])⟩

/-- Comparing a list with itself under `pixel_compare` yields all zeros. -/
theorem zipWith_pixel_compare_self (t : List ℕ) :
    List.zipWith pixel_compare t t = t.map (fun _ => 0) := by
  induction t with
  | nil => simp
  | cons x t ih => simp [pixel_compare, ih]

/-- The all-zero list of the same shape equals `t` iff `t` is all zeros. -/
theorem map_zero_eq_self_iff (t : List ℕ) :
    t.map (fun _ => (0 : ℕ)) = t ↔ t.all (fun v => v == 0) := by
  induction t with
  | nil => simp
  | cons x t ih =>
    simp only [List.map_cons, List.cons.injEq, List.all_cons, Bool.and_eq_true,
      beq_iff_eq, ih]
    constructor
    · rintro ⟨h1, h2⟩
      exact ⟨h1.symm, h2⟩
    · rintro ⟨h1, h2⟩
      exact ⟨h1.symm, h2⟩

/-- Folding `max` over an all-zero list yields zero. -/
theorem foldl_max_map_zero (t : List ℕ) :
    (t.map (fun _ => (0 : ℕ))).foldl Nat.max 0 = 0 := by
  induction t with
  | nil => rfl
  | cons x t ih => simpa using ih

/-- C2 counterexample: a diff run whose current canvas bytes equal a
nonzero target is treated as COMPLETE (`max(remaining) == 0`), not as
"not started yet": the not-started branch fires on
`remaining == target_data`, i.e. when NO nonzero target pixel matches,
not when `current == target`. -/
theorem run_diff_current_eq_target_counterexample :
    run_diff [1] [1] = RunDiffOutcome.complete ∧
    RunDiffOutcome.complete ≠ RunDiffOutcome.notStarted := by
  constructor
  · rfl
  · simp

/-- C2 (amended): a diff run in which the current stitched canvas bytes
equal the target bytes emits nothing — it returns early as "not started
yet" when the target is entirely transparent (then `remaining == target`),
and as complete otherwise; in neither case is a report produced.  The
"not started" treatment itself belongs to runs where `remaining` equals
`target`, i.e. where no nonzero target pixel is currently satisfied. -/
theorem run_diff_current_eq_target (current target : List ℕ)
    (h : current = target) :
    run_diff current target =
      (if target.all (fun v => v == 0) then RunDiffOutcome.notStarted
       else RunDiffOutcome.complete) := by
  rw [h]
  simp only [run_diff, zipWith_pixel_compare_self]
  by_cases hall : target.all (fun v => v == 0)
  · rw [if_pos ((map_zero_eq_self_iff target).mpr hall), if_pos hall]
  · have hne : ¬ target.map (fun _ => (0 : ℕ)) = target := fun hh =>
      hall ((map_zero_eq_self_iff target).mp hh)
    have hnil : ¬ target.map (fun _ => (0 : ℕ)) = [] := by
      intro hh
      apply hne
      rw [List.map_eq_nil_iff] at hh
      simp [hh]
    rw [if_neg hne, if_neg hnil, if_pos (foldl_max_map_zero target), if_neg hall]

/-- C2 witness: a nonzero target byte-equal to the current canvas. -/
theorem run_diff_current_eq_target_witness :
    run_diff [0, 5] [0, 5] =
      (if ([0, 5] : List ℕ).all (fun v => v == 0) then RunDiffOutcome.notStarted
       else RunDiffOutcome.complete) :=
  run_diff_current_eq_target [0, 5] [0, 5] rfl

/-- C5 counterexample: in `Project.run_diff`, the reported percentage on
target `[1,1,1]` and current `[1,1,2]` is `1 * 100 / 3` — the REMAINING
share `100·(num_remaining/num_target)` — which differs from the claimed
`100·(1 − num_remaining/num_target)`. -/
theorem run_diff_percentage_counterexample :
    run_diff [1, 1, 2] [1, 1, 1] = .report 1 3 ((1 : ℚ) * 100 / (3 : ℚ)) ∧
    (1 : ℚ) * 100 / (3 : ℚ) ≠ 100 * (1 - (1 : ℚ) / (3 : ℚ)) := by
  constructor
  · simp [run_diff, pixel_compare]
  · norm_num

/-- C5 (amended): in every diff run, `num_target = max(1, count(target[i] ≠ 0))`
(`... or 1` in the source), so the percentage division never divides by
zero, even for an all-transparent target; `run_diff` reports
`percentage = 100·num_remaining/num_target` (the remaining share), while
the rebuild tool reports `percent = 100·(1 − num_remaining/num_target)`. -/
theorem run_diff_percentage_spec (current target : List ℕ) (n t : ℕ) (pct : ℚ)
    (hrep : run_diff current target = .report n t pct) :
    t = max 1 (target.countP (fun v => v != 0)) ∧ 0 < t ∧
    pct = (n : ℚ) * 100 / (t : ℚ) ∧
    Rebuild.num_target target = max 1 (target.countP (fun v => v != 0)) ∧
    0 < Rebuild.num_target target ∧
    Rebuild.percent current target =
      100 * (1 - (Rebuild.num_remaining current target : ℚ) /
        (Rebuild.num_target target : ℚ)) := by
  have hnt : Rebuild.num_target target = max 1 (target.countP (fun v => v != 0)) := by
    simp only [Rebuild.num_target]
    rcases Nat.eq_zero_or_pos (target.countP (fun v => v != 0)) with hc | hc
    · simp [hc]
    · rw [if_neg (by omega)]
      exact (Nat.max_eq_right hc).symm
  have hntpos : 0 < Rebuild.num_target target := by
    rw [hnt]
    omega
  have hperc : Rebuild.percent current target =
      100 * (1 - (Rebuild.num_remaining current target : ℚ) /
        (Rebuild.num_target target : ℚ)) := by
    have hne : (Rebuild.num_target target : ℚ) ≠ 0 := by
      exact_mod_cast hntpos.ne'
    rw [Rebuild.percent]
    field_simp
    ring
  obtain ⟨-, ht, hpct⟩ := run_diff_report_inv current target n t pct hrep
  refine ⟨?_, ?_, hpct, hnt, hntpos, hperc⟩
  · rw [ht, hnt]
  · rw [ht]
    exact hntpos

/-- C5 witness: target `[1,1]`, current `[2,1]` — one of two pixels left. -/
theorem run_diff_percentage_spec_witness :
    run_diff [2, 1] [1, 1] = .report 1 2 ((1 : ℚ) * 100 / (2 : ℚ)) ∧
    ((2 : ℕ) = max 1 (([1, 1] : List ℕ).countP (fun v => v != 0)) ∧ (0 : ℕ) < 2 ∧
      (1 : ℚ) * 100 / (2 : ℚ) = ((1 : ℕ) : ℚ) * 100 / ((2 : ℕ) : ℚ) ∧
      Rebuild.num_target [1, 1] = max 1 (([1, 1] : List ℕ).countP (fun v => v != 0)) ∧
      0 < Rebuild.num_target [1, 1] ∧
      Rebuild.percent [2, 1] [1, 1] =
        100 * (1 - (Rebuild.num_remaining [2, 1] [1, 1] : ℚ) /
          (Rebuild.num_target [1, 1] : ℚ))) :=
  ⟨by simp [run_diff, pixel_compare],
   run_diff_percentage_spec [2, 1] [1, 1] 1 2 ((1 : ℚ) * 100 / (2 : ℚ))
     (by simp [run_diff, pixel_compare])⟩

/-- C9: `Main._file_modified` returns `True` for EVERY loaded project and
EVERY stat result — including an unchanged mtime — because `Project`
instances never carry an `mtime` attribute (`Project.__init__`, projects.py
lines 61-65, sets only `path`, `rect`, `_image`), so
`current_mtime != getattr(proj, "mtime", None)` compares a float against
`None` and is always `True`.  Hence `check_projects` reopens every known
project file on every cycle, while the claim (and the repository's own
tests, which expect `load_project` to stamp `proj.mtime`) demand that a
known file with unchanged mtime not be reloaded. -/
theorem file_modified_always_true (proj : Project) (m : ℚ) (path : String) :
    MainLoop.file_modified (fun _ => some proj) (fun _ => some m) path = true := by
  simp [MainLoop.file_modified, Project.getattr_mtime]

/-- C10 counterexample: save the cached metadata while the project file is
missing (`FileNotFoundError` makes `__init__` record `mtime = 0`), then
construct a fresh `CachedProjectMetadata` with the file still missing: the
fresh load is `[rect]` — truthy — although the claim requires a missing
file to force an empty (falsy) load. -/
theorem cpm_missing_file_counterexample :
    (cpm_init (cpm_save (fun _ => none) (cpm_init (fun _ => none) "p" none) ⟨1, 2, 3, 4⟩).1
        "p" none).contents = [⟨1, 2, 3, 4⟩] ∧
    ([(⟨1, 2, 3, 4⟩ : Rectangle)] : List Rectangle) ≠ [] := by
  constructor
  · simp [cpm_init, cpm_save]
  · simp

/-- C10 (amended): the metadata cache round-trips its rectangle keyed on
the EFFECTIVE mtime `int(st_mtime)`, where a missing file is recorded as
mtime 0: after saving via `CachedProjectMetadata(path)(rect)`, a fresh
`CachedProjectMetadata(path)` whose effective mtime equals the one captured
at save time is truthy and contains exactly `rect`, and a fresh load whose
effective mtime differs is empty (falsy).  (A file missing at save AND at
reload therefore round-trips, since both sides are effective mtime 0.) -/
theorem cpm_roundtrip_spec (db : CacheDB) (key : String) (fm : Option ℤ)
    (rect : Rectangle) (fm2 : Option ℤ) (h2 : fm2.getD 0 ≠ fm.getD 0) :
    (cpm_init (cpm_save db (cpm_init db key fm) rect).1 key fm).contents = [rect] ∧
    (cpm_init (cpm_save db (cpm_init db key fm) rect).1 key fm2).contents = [] := by
  have h2s : fm.getD 0 ≠ fm2.getD 0 := Ne.symm h2
  constructor
  · simp [cpm_init, cpm_save]
  · simp [cpm_init, cpm_save, h2s]

/-- C10 witness: save at mtime 5, reload at mtime 5 and at mtime 7. -/
theorem cpm_roundtrip_spec_witness :
    ((some (7 : ℤ)).getD 0 ≠ (some (5 : ℤ)).getD 0) ∧
    ((cpm_init (cpm_save (fun _ => none) (cpm_init (fun _ => none) "p" (some 5)) ⟨0, 0, 1, 1⟩).1
        "p" (some 5)).contents = [⟨0, 0, 1, 1⟩] ∧
      (cpm_init (cpm_save (fun _ => none) (cpm_init (fun _ => none) "p" (some 5)) ⟨0, 0, 1, 1⟩).1
        "p" (some 7)).contents = []) :=
  ⟨by decide,
   cpm_roundtrip_spec (fun _ => none) "p" (some 5) ⟨0, 0, 1, 1⟩ (some 7) (by decide)⟩

end Cam
